import Mathlib

/-!
A shallow embedding of `app/stookwijzer/stookwijzerapi.py` (class `Stookwijzer`)
and verification of its specified behaviour.

Modelling conventions:
* JSON scalar values reachable in a feature's `properties` object are modelled
  by `JsonVal` (strings, integers, booleans, null); Python `str()` of such a
  value is `pyStr`.  Fractional JSON numbers are not modelled (no claim needs
  the `repr` of a binary double).
* A fetched payload (`self._stookwijzer`) is `Option Payload`: `Option.none` is
  Python `None` (fetch failure); a `Payload` is a JSON object with a `features`
  list whose members carry a `properties` mapping.
* Python `float(s)` is `pyFloat?` over exact rationals: it accepts the decimal
  literal grammar (optional sign, digits with at most one point, optional
  exponent) and fails (`ValueError`) otherwise; `inf`/`nan`/underscores and
  surrounding whitespace are not modelled.  Python `round(x, 1)` and the
  `"{:.6f}"` format round half to even, modelled exactly on rationals.
* Naive datetimes are modelled as minutes on a linear timeline
  (`daysFromCivil`), and `datetime.now()` as an explicit argument.
  `dt.astimezone(tz)` preserves the instant it denotes and only changes its
  rendering offset; the process's local zone, which `astimezone` uses to
  interpret a naive datetime, is modelled as UTC, so `astimezone_ams` is the
  identity on instants.  Entry timestamps are compared as instants: `isoformat`
  at one fixed rendering is injective and monotone in the instant.
* Network I/O and the wall clock are passed in as arguments (`fetched`, `now`):
  `async_update` becomes a pure transition on the object's state.
-/

namespace Stookwijzer

/-- A JSON scalar value as it can appear under a feature's `properties`. -/
inductive JsonVal where
  | str (s : String)
  | int (n : Int)
  | bool (b : Bool)
  | null
deriving DecidableEq, Repr

/-- Python `str()` applied to a `JsonVal`. -/
def pyStr : JsonVal → String
  | .str s => s
  | .int n => toString n
  | .bool true => "True"
  | .bool false => "False"
  | .null => "None"

/-- One member of the payload's `features` array. -/
structure Feature where
  properties : List (String × JsonVal)
deriving DecidableEq, Repr

/-- The parsed JSON payload returned by the feature service. -/
structure Payload where
  features : List Feature
deriving DecidableEq, Repr

/-- Model of `get_property`: `str(self._stookwijzer["features"][0]["properties"][prop])`,
with `KeyError`/`IndexError`/`TypeError` caught and turned into `""`. -/
def get_property (stookwijzer : Option Payload) (prop : String) : String :=
  match stookwijzer with
  | Option.none => ""
  | some p =>
    match p.features.head? with
    | Option.none => ""
    | some f =>
      match f.properties.lookup prop with
      | Option.none => ""
      | some v => pyStr v

/-- Model of `get_color`: the advisory code to colour mapping. -/
def get_color (advice : String) : String :=
  if advice = "0" then "code_yellow"
  else if advice = "1" then "code_orange"
  else if advice = "2" then "code_red"
  else ""

/-- Leading decimal digits of a character list, as values, with the rest. -/
def takeDigits : List Char → List Nat × List Char
  | [] => ([], [])
  | c :: cs =>
    if c.isDigit then
      let r := takeDigits cs
      ((c.toNat - 48) :: r.1, r.2)
    else ([], c :: cs)

/-- The natural number denoted by a list of decimal digit values. -/
def natOfDigits (ds : List Nat) : Nat :=
  ds.foldl (fun a d => a * 10 + d) 0

/-- Exponent suffix of a Python float literal: `e`/`E`, optional sign, at
least one digit, end of string; `some 0` on an empty suffix.  (The rational
value is assembled with `Rat.divInt` rather than field operations, which are
irreducible for `ℚ`.) -/
def pyFloatExp : List Char → Option Int
  | [] => some 0
  | 'e' :: cs => pyFloatExpDigits cs
  | 'E' :: cs => pyFloatExpDigits cs
  | _ => Option.none
where
  /-- signed digit string after the exponent marker -/
  pyFloatExpDigits (cs : List Char) : Option Int :=
    let signed : Bool × List Char :=
      match cs with
      | '-' :: r => (true, r)
      | '+' :: r => (false, r)
      | r => (false, r)
    let d := takeDigits signed.2
    if d.1.isEmpty ∨ ¬d.2.isEmpty then Option.none
    else if signed.1 then some (-(natOfDigits d.1 : Int))
    else some (natOfDigits d.1)

/-- Python `float(s)`: `some` of the exact rational the literal
`[+-]? digits? (. digits?)? ([eE][+-]?digits)?` denotes (with at least one
mantissa digit), or `Option.none` for the `ValueError` a non-numeric string
raises. -/
def pyFloat? (s : String) : Option ℚ :=
  let cs := s.toList
  let signed : Bool × List Char :=
    match cs with
    | '-' :: r => (true, r)
    | '+' :: r => (false, r)
    | r => (false, r)
  let ip := takeDigits signed.2
  let frac : List Nat × List Char :=
    match ip.2 with
    | '.' :: r => takeDigits r
    | r => ([], r)
  if ip.1.isEmpty ∧ frac.1.isEmpty then Option.none
  else
    match pyFloatExp frac.2 with
    | Option.none => Option.none
    | some e =>
      let m : Int := (if signed.1 then -1 else 1) * natOfDigits (ip.1 ++ frac.1)
      let k : Int := e - frac.1.length
      some (if 0 ≤ k then Rat.divInt (m * 10 ^ k.toNat) 1
            else Rat.divInt m (10 ^ (-k).toNat))

/-- Round `n / d` (with `d > 0`) to the nearest integer, ties to the even
integer. -/
def intRndHalfEven (n : Int) (d : Nat) : Int :=
  let f := n.fdiv d
  let r := n - f * d
  if 2 * r < d then f
  else if (d : Int) < 2 * r then f + 1
  else if f % 2 = 0 then f else f + 1

/-- Round a rational to the nearest integer, ties to the even integer. -/
def rndHalfEven (q : ℚ) : Int :=
  intRndHalfEven q.num q.den

/-- Python `round(x, 1)`: round half to even at one decimal digit,
`10 * x = x.num * 10 / x.den` rounded and divided back by ten. -/
def pyRound1 (q : ℚ) : ℚ :=
  Rat.divInt (intRndHalfEven (q.num * 10) q.den) 10

/-- Result of `windspeed_ms`: a rounded number, the falsy string returned
unrounded, or an uncaught `ValueError` from `float()`. -/
inductive WindResult where
  | float (q : ℚ)
  | str (s : String)
  | valueError
deriving DecidableEq, Repr

/-- Model of `windspeed_ms`: `round(float(windspeed), 1) if windspeed else windspeed`
where `windspeed = get_property("wind")`. -/
def windspeed_ms (stookwijzer : Option Payload) : WindResult :=
  let windspeed := get_property stookwijzer "wind"
  if windspeed = "" then .str windspeed
  else
    match pyFloat? windspeed with
    | some q => .float (pyRound1 q)
    | Option.none => .valueError

/-- Model of `windspeed_bft`: returns `get_property("wind_bft")` unchanged — always a
string in the source, despite its `int | None` annotation. -/
def windspeed_bft (stookwijzer : Option Payload) : String :=
  get_property stookwijzer "wind_bft"

/-- The object's mutable fields (`_advice`, `_alert`, `_last_updated`,
`_stookwijzer`); the two network-derived inputs are passed explicitly. -/
structure SWState where
  advice : Option String
  alert : Option Bool
  last_updated : Option Int
  stookwijzer : Option Payload
deriving DecidableEq, Repr

/-- The state right after `__init__`. -/
def initState : SWState :=
  { advice := Option.none, alert := Option.none,
    last_updated := Option.none, stookwijzer := Option.none }

/-- Model of `async_update` as a pure state transition: `fetched` is the result of
`async_get_stookwijzer()`, `now` the value of `datetime.now()`. -/
def async_update (s : SWState) (fetched : Option Payload) (now : Int) : SWState :=
  let s1 := { s with stookwijzer := fetched }
  let advice := get_property fetched "advies_0"
  if advice ≠ "" then
    { s1 with
      advice := some (get_color advice),
      alert := some (get_property fetched "alert_0" == "1"),
      last_updated := some now }
  else s1

/-- Gregorian leap-year test, as `calendar`/`datetime` use it. -/
def isLeap (y : Nat) : Bool :=
  y % 4 = 0 && (y % 100 ≠ 0 || y % 400 = 0)

/-- Length of a month, 1-based; `0` for an out-of-range month index. -/
def daysInMonth (y m : Nat) : Nat :=
  if m = 1 then 31 else if m = 2 then (if isLeap y then 29 else 28)
  else if m = 3 then 31 else if m = 4 then 30 else if m = 5 then 31
  else if m = 6 then 30 else if m = 7 then 31 else if m = 8 then 31
  else if m = 9 then 30 else if m = 10 then 31 else if m = 11 then 30
  else if m = 12 then 31 else 0

/-- Days from 1970-01-01 to the civil date `y-m-d` (proleptic Gregorian),
for years ≥ 1. -/
def daysFromCivil (y m d : Nat) : Int :=
  let y' : Int := if m ≤ 2 then (y : Int) - 1 else y
  let era : Int := y' / 400
  let yoe : Int := y' - era * 400
  let mp : Int := if m > 2 then (m : Int) - 3 else (m : Int) + 9
  let doy : Int := (153 * mp + 2) / 5 + d - 1
  let doe : Int := yoe * 365 + yoe / 4 - yoe / 100 + doy
  era * 146097 + doe - 719468

/-- Read a one- or two-digit field the way `strptime`'s regexps do: take two
digits when their value lies in `[lo, hi]`, else one digit valued in `[lo, 9]`. -/
def parseField2 (lo hi : Nat) : List Char → Option (Nat × List Char)
  | c1 :: c2 :: cs =>
    if c1.isDigit ∧ c2.isDigit ∧
        lo ≤ (c1.toNat - 48) * 10 + (c2.toNat - 48) ∧
        (c1.toNat - 48) * 10 + (c2.toNat - 48) ≤ hi then
      some ((c1.toNat - 48) * 10 + (c2.toNat - 48), cs)
    else if c1.isDigit ∧ lo ≤ c1.toNat - 48 then
      some (c1.toNat - 48, c2 :: cs)
    else Option.none
  | [c1] =>
    if c1.isDigit ∧ lo ≤ c1.toNat - 48 then some (c1.toNat - 48, [])
    else Option.none
  | [] => Option.none

/-- Read one literal character. -/
def parseLit (c : Char) : List Char → Option (List Char)
  | c1 :: cs => if c1 = c then some cs else Option.none
  | [] => Option.none

/-- Read exactly four digits (`%Y`). -/
def parseYear4 : List Char → Option (Nat × List Char)
  | c1 :: c2 :: c3 :: c4 :: cs =>
    if c1.isDigit ∧ c2.isDigit ∧ c3.isDigit ∧ c4.isDigit then
      some (((c1.toNat - 48) * 10 + (c2.toNat - 48)) * 100 +
            (c3.toNat - 48) * 10 + (c4.toNat - 48), cs)
    else Option.none
  | _ => Option.none

/-- Model of `datetime.strptime(s, "%d-%m-%Y %H:%M")`, yielding the minute count of
the naive result on the linear timeline, or `Option.none` for the
`ValueError` a mismatch (or an invalid civil date such as 31-04 or year 0)
raises. -/
def strptime_dmy_hm (s : String) : Option Int := do
  let (d, r1) ← parseField2 1 31 s.toList
  let r2 ← parseLit '-' r1
  let (m, r3) ← parseField2 1 12 r2
  let r4 ← parseLit '-' r3
  let (y, r5) ← parseYear4 r4
  let r6 ← parseLit ' ' r5
  let (hh, r7) ← parseField2 0 23 r6
  let r8 ← parseLit ':' r7
  let (mi, r9) ← parseField2 0 59 r8
  if ¬r9.isEmpty then Option.none
  else if y = 0 ∨ d > daysInMonth y m then Option.none
  else some (daysFromCivil y m d * 1440 + hh * 60 + mi)

/-- Model of `dt.astimezone(pytz.timezone("Europe/Amsterdam"))` on the instant a naive
datetime denotes: `astimezone` keeps the instant and only changes the
rendering offset, and the process-local zone interpreting the naive value is
modelled as UTC, so the instant is unchanged. -/
def astimezone_ams (dt : Int) : Int := dt

/-- The value stored beside `"datetime"` in one forecast dict: an advice
colour or an alert flag, depending on the `advice` argument. -/
inductive ForecastVal where
  | advice (color : String)
  | alert (b : Bool)
deriving DecidableEq, Repr

/-- One forecast dict: `{"datetime": ..., "advice"/"alert": ...}`, the
timestamp kept as an instant in minutes. -/
structure ForecastEntry where
  datetime : Int
  val : ForecastVal
deriving DecidableEq, Repr

/-- Model of `get_forecast_at_offset`: timestamp `runtime + offset` hours plus the
advice colour of `advies_{offset}` or the alert flag of `alert_{offset}`. -/
def get_forecast_at_offset (stookwijzer : Option Payload) (runtime : Int)
    (offset : Nat) (advice : Bool) : ForecastEntry :=
  { datetime := runtime + offset * 60,
    val :=
      if advice then
        .advice (get_color (get_property stookwijzer ("advies_" ++ toString offset)))
      else
        .alert (get_property stookwijzer ("alert_" ++ toString offset) == "1") }

/-- Result of `get_forecast_array`: Python `None`, a list, or the uncaught
`ValueError` `strptime` raises on a present but malformed runtime. -/
inductive ForecastResult where
  | none
  | list (entries : List ForecastEntry)
  | valueError
deriving DecidableEq, Repr

/-- Model of `get_forecast_array`: `None` when `model_runtime` is falsy, else the
twelve entries at offsets `range(2, 25, 2)` from the localized runtime. -/
def get_forecast_array (stookwijzer : Option Payload) (advice : Bool) :
    ForecastResult :=
  let runtime := get_property stookwijzer "model_runtime"
  if runtime = "" then .none
  else
    match strptime_dmy_hm runtime with
    | Option.none => .valueError
    | some dt =>
      let localdt := astimezone_ams dt
      .list ((List.range' 2 12 2).map fun offset =>
        get_forecast_at_offset stookwijzer localdt offset advice)

/-- Model of the `forecast_advice` property. -/
def forecast_advice (stookwijzer : Option Payload) : ForecastResult :=
  get_forecast_array stookwijzer true

/-- Model of the `forecast_alert` property. -/
def forecast_alert (stookwijzer : Option Payload) : ForecastResult :=
  get_forecast_array stookwijzer false

/-- A value passed to `get_boundary_box` and then to `float()`: a number, a
string, or `None` (`float(None)` raises the `TypeError` the source catches). -/
inductive Coord where
  | num (q : ℚ)
  | str (s : String)
  | none
deriving DecidableEq, Repr

/-- Python `float()` on a `Coord`; `Option.none` for `ValueError`/`TypeError`. -/
def coordFloat? : Coord → Option ℚ
  | .num q => some q
  | .str s => pyFloat? s
  | .none => Option.none

/-- The decimal digit character for `n % 10`. -/
def digitChar (n : Nat) : Char :=
  Char.ofNat (48 + n % 10)

/-- The six decimal digits of `n % 10^6`, most significant first. -/
def sixFrac (n : Nat) : String :=
  String.mk [digitChar (n / 100000), digitChar (n / 10000), digitChar (n / 1000),
             digitChar (n / 100), digitChar (n / 10), digitChar n]

/-- Model of `"{:.6f}".format(q)`: sign, integer part, point, exactly six fractional
digits, rounding half to even at the sixth digit
(`|q| * 10^6 = |q.num| * 10^6 / q.den`). -/
def fmtFixed6 (q : ℚ) : String :=
  let n : Nat := (intRndHalfEven (q.num.natAbs * 1000000) q.den).toNat
  (if q < 0 then "-" else "") ++
    (toString (n / 1000000) ++ ("." ++ sixFrac (n % 1000000)))

/-- Model of `get_boundary_box`: the four values `x, y, x+10, y+10` formatted to six
decimals and joined by `"%2C"`; `None` when a coordinate does not coerce. -/
def get_boundary_box (x y : Coord) : Option String :=
  match coordFloat? x, coordFloat? y with
  | some fx, some fy =>
    some (fmtFixed6 fx ++ "%2C" ++ fmtFixed6 fy ++ "%2C" ++
          fmtFixed6 (fx + 10) ++ "%2C" ++ fmtFixed6 (fy + 10))
  | _, _ => Option.none

/-! ### Concrete payloads used as test inputs -/

/-- Payload carrying only a current advisory and alert. -/
def payAdvAlert : Payload := ⟨[⟨[("advies_0", .str "0"), ("alert_0", .str "1")]⟩]⟩

/-- Payload carrying an alert but no current advisory. -/
def payAlertOnly : Payload := ⟨[⟨[("alert_0", .str "1")]⟩]⟩

/-- Payload with a single unrelated property. -/
def payLkiOnly : Payload := ⟨[⟨[("lki", .int 2)]⟩]⟩

/-- Payload with a numeric wind speed string. -/
def payWind427 : Payload := ⟨[⟨[("wind", .str "4.27")]⟩]⟩

/-- Payload with a non-numeric wind speed string. -/
def payWindAbc : Payload := ⟨[⟨[("wind", .str "abc")]⟩]⟩

/-- Payload with an integer Beaufort wind force. -/
def payBft4 : Payload := ⟨[⟨[("wind_bft", .int 4)]⟩]⟩

/-- Payload with a model runtime and one forecast advisory. -/
def payRuntime : Payload :=
  ⟨[⟨[("model_runtime", .str "01-01-2024 00:00"), ("advies_2", .str "1")]⟩]⟩

/-! ### Helper lemmas -/

/-- The model of `strptime` rejects the empty string. -/
theorem strptime_dmy_hm_empty : strptime_dmy_hm "" = Option.none := rfl

/-- When the runtime string parses, `get_forecast_array` is the map of
`get_forecast_at_offset` over the even offsets 2..24. -/
theorem get_forecast_array_eq_list (sw : Option Payload) (b : Bool) (t : Int)
    (ht : strptime_dmy_hm (get_property sw "model_runtime") = some t) :
    get_forecast_array sw b =
      .list ((List.range' 2 12 2).map fun offset =>
        get_forecast_at_offset sw (astimezone_ams t) offset b) := by
  have hne : get_property sw "model_runtime" ≠ "" := by
    intro he
    rw [he, strptime_dmy_hm_empty] at ht
    exact Option.noConfusion ht
  simp only [get_forecast_array, if_neg hne, ht]

/-- Timestamp of the `i`-th forecast entry. -/
theorem forecast_list_datetime (sw : Option Payload) (b : Bool) (t : Int)
    (i : Nat)
    (h : i < ((List.range' 2 12 2).map fun offset =>
        get_forecast_at_offset sw (astimezone_ams t) offset b).length) :
    (((List.range' 2 12 2).map fun offset =>
        get_forecast_at_offset sw (astimezone_ams t) offset b).get ⟨i, h⟩).datetime =
      astimezone_ams t + (2 + 2 * (i : Int)) * 60 := by
  have h' : i < (List.range' 2 12 2).length := by
    simpa using h
  rw [List.get_eq_getElem, List.getElem_map, List.getElem_range']
  simp only [get_forecast_at_offset]
  push_cast
  ring

/-! ### Claim theorems -/

/-- C4: `get_color` maps exactly "0" to yellow, "1" to orange, "2" to red and
every other string (including "" and "9") to the empty colour, by exact
string match. -/
theorem get_color_mapping :
    get_color "0" = "code_yellow" ∧ get_color "1" = "code_orange" ∧
    get_color "2" = "code_red" ∧ get_color "" = "" ∧ get_color "9" = "" ∧
    ∀ s : String, s ≠ "0" → s ≠ "1" → s ≠ "2" → get_color s = "" := by
  refine ⟨rfl, rfl, rfl, rfl, rfl, ?_⟩
  intro s h0 h1 h2
  simp [get_color, h0, h1, h2]

/-- Witness for C4: the catch-all branch at the concrete string "abc". -/
theorem get_color_mapping_witness : get_color "abc" = "" :=
  get_color_mapping.2.2.2.2.2 "abc" (by decide) (by decide) (by decide)

/-- C7: `get_property` returns the stringified value of
`features[0].properties[name]`, and the empty string — never an exception —
when the payload is `None`, has no features, or lacks the property. -/
theorem get_property_total :
    (∀ prop, get_property Option.none prop = "") ∧
    (∀ (p : Payload) prop, p.features = [] → get_property (some p) prop = "") ∧
    (∀ (p : Payload) f fs prop, p.features = f :: fs →
      f.properties.lookup prop = Option.none → get_property (some p) prop = "") ∧
    (∀ (p : Payload) f fs prop v, p.features = f :: fs →
      f.properties.lookup prop = some v → get_property (some p) prop = pyStr v) := by
  refine ⟨fun prop => rfl, ?_, ?_, ?_⟩
  · intro p prop hf
    simp [get_property, hf]
  · intro p f fs prop hf hl
    simp [get_property, hf, hl]
  · intro p f fs prop v hf hl
    simp [get_property, hf, hl]

/-- Witness for C7: all four branches at concrete payloads. -/
theorem get_property_total_witness :
    get_property Option.none "a" = "" ∧
    get_property (some ⟨[]⟩) "a" = "" ∧
    get_property (some payLkiOnly) "wind" = "" ∧
    get_property (some payLkiOnly) "lki" = "2" :=
  ⟨get_property_total.1 "a",
   get_property_total.2.1 ⟨[]⟩ "a" rfl,
   get_property_total.2.2.1 payLkiOnly ⟨[("lki", .int 2)]⟩ [] "wind" rfl (by decide),
   get_property_total.2.2.2 payLkiOnly ⟨[("lki", .int 2)]⟩ [] "lki" (.int 2) rfl
     (by decide)⟩

/-- C5: at `"wind" = "4.27"` the code rounds half-to-even to one decimal and
returns 4.3; with `"wind"` absent it returns the empty string (the falsy
`get_property` result), not `None` as annotated. -/
theorem windspeed_ms_427_and_absent :
    windspeed_ms (some payWind427) = .float (mkRat 43 10) ∧
    windspeed_ms (some payLkiOnly) = .str "" := by
  constructor <;> decide

/-- C8: `windspeed_bft` hands back the raw `get_property` string: `""` when
`"wind_bft"` is absent (not `None`), and the stringified value (not an
integer) when it is present. -/
theorem windspeed_bft_absent_and_present :
    windspeed_bft (some payWind427) = "" ∧
    windspeed_bft (some payBft4) = "4" := by
  constructor <;> rfl

/-- C10 counterexample: a present non-numeric `"wind"` makes `windspeed_ms`
raise `ValueError` — the conversion is not guarded, so the claimed totality
fails. -/
theorem windspeed_ms_raises_on_nonnumeric :
    windspeed_ms (some payWindAbc) = .valueError := by
  rfl

/-- C10 amended: `windspeed_ms` returns without raising exactly when the
`"wind"` property is absent/empty or parses as a real number. -/
theorem windspeed_ms_total_iff :
    ∀ sw : Option Payload,
      windspeed_ms sw ≠ .valueError ↔
        (get_property sw "wind" = "" ∨ (pyFloat? (get_property sw "wind")).isSome) := by
  intro sw
  by_cases h : get_property sw "wind" = ""
  · simp [windspeed_ms, h]
  · rcases hp : pyFloat? (get_property sw "wind") with _ | q
    · simp [windspeed_ms, h, hp]
    · simp [windspeed_ms, h, hp]

/-- When `advies_0` stringifies to a non-empty value, `async_update` writes
all three current fields. -/
theorem async_update_populates (s : SWState) (p : Option Payload) (now : Int)
    (h : get_property p "advies_0" ≠ "") :
    (async_update s p now).advice = some (get_color (get_property p "advies_0")) ∧
    (async_update s p now).alert = some (get_property p "alert_0" == "1") ∧
    (async_update s p now).last_updated = some now := by
  simp [async_update, h]

/-- When `advies_0` stringifies to the empty string, `async_update` leaves
all three current fields at their prior values. -/
theorem async_update_preserves (s : SWState) (p : Option Payload) (now : Int)
    (h : get_property p "advies_0" = "") :
    (async_update s p now).advice = s.advice ∧
    (async_update s p now).alert = s.alert ∧
    (async_update s p now).last_updated = s.last_updated := by
  simp [async_update, h]

/-- C1: one update cycle populates the three current fields together — when
`advies_0` stringifies to a non-empty value, `advice` becomes its colour,
`alert` the equality of `alert_0` with "1" and `last_updated` the update's
wall-clock time; when it is absent or empty all three keep their prior
values even though the fetch succeeded. -/
theorem advies0_all_or_nothing (s : SWState) (p : Option Payload) (now : Int) :
    (get_property p "advies_0" ≠ "" →
      (async_update s p now).advice = some (get_color (get_property p "advies_0")) ∧
      (async_update s p now).alert = some (get_property p "alert_0" == "1") ∧
      (async_update s p now).last_updated = some now) ∧
    (get_property p "advies_0" = "" →
      (async_update s p now).advice = s.advice ∧
      (async_update s p now).alert = s.alert ∧
      (async_update s p now).last_updated = s.last_updated) :=
  ⟨async_update_populates s p now, async_update_preserves s p now⟩

/-- Witness for C1: both branches at concrete payloads, from the initial
state. -/
theorem advies0_all_or_nothing_witness :
    ((async_update initState (some payAdvAlert) 5).advice = some "code_yellow" ∧
     (async_update initState (some payAdvAlert) 5).alert = some true ∧
     (async_update initState (some payAdvAlert) 5).last_updated = some 5) ∧
    ((async_update initState (some payLkiOnly) 5).advice = Option.none ∧
     (async_update initState (some payLkiOnly) 5).alert = Option.none ∧
     (async_update initState (some payLkiOnly) 5).last_updated = Option.none) := by
  have h1 := (advies0_all_or_nothing initState (some payAdvAlert) 5).1 (by decide)
  have h2 := (advies0_all_or_nothing initState (some payLkiOnly) 5).2 (by decide)
  refine ⟨⟨?_, ?_, h1.2.2⟩, h2⟩
  · rw [h1.1]; rfl
  · rw [h1.2.1]; rfl

/-- C6 counterexample: with `alert_0 = "1"` but no `advies_0`, the update
leaves `alert` unset, so the snapshot's `alert` is not `true` even though
`alert_0` is exactly "1" — the unconditional "if and only if" fails. -/
theorem alert_unconditional_iff_fails :
    get_property (some payAlertOnly) "alert_0" = "1" ∧
    (async_update initState (some payAlertOnly) 0).alert ≠ some true := by
  decide

/-- C6 amended: once the current advisory is populated (`advies_0` non-empty),
`alert` is `true` iff `alert_0` is exactly the string "1", and `false` when
`alert_0` is "0" or absent. -/
theorem alert_iff_when_advice_present (s : SWState) (p : Option Payload)
    (now : Int) (h : get_property p "advies_0" ≠ "") :
    ((async_update s p now).alert = some true ↔ get_property p "alert_0" = "1") ∧
    (get_property p "alert_0" = "0" ∨ get_property p "alert_0" = "" →
      (async_update s p now).alert = some false) := by
  have halert := (async_update_populates s p now h).2.1
  constructor
  · rw [halert]
    simp
  · intro h0
    rw [halert]
    rcases h0 with h0 | h0 <;> rw [h0] <;> rfl

/-- Witness for C6: the amended statement at a concrete payload carrying
`advies_0 = "0"` and `alert_0 = "1"`. -/
theorem alert_iff_when_advice_present_witness :
    (async_update initState (some payAdvAlert) 7).alert = some true :=
  (alert_iff_when_advice_present initState (some payAdvAlert) 7 (by decide)).1.mpr
    (by decide)

/-- C2: `get_forecast_array` returns `None` — not an empty list — when
`model_runtime` is absent, and when the runtime parses in the
`"%d-%m-%Y %H:%M"` format it returns exactly twelve entries stamped at the
localized runtime plus 2, 4, …, 24 hours, strictly ascending. -/
theorem forecast_array_shape (sw : Option Payload) (b : Bool) :
    (get_property sw "model_runtime" = "" → get_forecast_array sw b = .none) ∧
    (∀ t, strptime_dmy_hm (get_property sw "model_runtime") = some t →
      ∃ l, get_forecast_array sw b = .list l ∧ l.length = 12 ∧
        (∀ i (h : i < l.length),
          (l.get ⟨i, h⟩).datetime = astimezone_ams t + (2 + 2 * (i : Int)) * 60) ∧
        List.Pairwise (fun a c => a.datetime < c.datetime) l) := by
  constructor
  · intro h
    simp [get_forecast_array, h]
  · intro t ht
    refine ⟨_, get_forecast_array_eq_list sw b t ht, ?_, ?_, ?_⟩
    · simp
    · intro i h
      exact forecast_list_datetime sw b t i h
    · rw [List.pairwise_iff_get]
      intro i j hij
      rw [forecast_list_datetime sw b t i i.isLt, forecast_list_datetime sw b t j j.isLt]
      have : (i : Nat) < (j : Nat) := hij
      omega

/-- Witness for C2: both branches — a payload without `model_runtime` and the
concrete runtime "01-01-2024 00:00". -/
theorem forecast_array_shape_witness :
    get_forecast_array (some payLkiOnly) false = .none ∧
    ∃ l, get_forecast_array (some payRuntime) true = .list l ∧ l.length = 12 := by
  constructor
  · exact (forecast_array_shape (some payLkiOnly) false).1 (by decide)
  · obtain ⟨l, h1, h2, -, -⟩ :=
      (forecast_array_shape (some payRuntime) true).2 28401120 (by decide)
    exact ⟨l, h1, h2⟩

/-- C9: whenever the runtime parses, the advice forecast (built with
`advice = true`) and the alert forecast (built with `advice = false`) have
the same length and identical timestamps at every index. -/
theorem forecast_series_aligned (sw : Option Payload) (t : Int)
    (ht : strptime_dmy_hm (get_property sw "model_runtime") = some t) :
    ∃ la lb, forecast_advice sw = .list la ∧ forecast_alert sw = .list lb ∧
      la.length = lb.length ∧
      ∀ i (ha : i < la.length) (hb : i < lb.length),
        (la.get ⟨i, ha⟩).datetime = (lb.get ⟨i, hb⟩).datetime := by
  refine ⟨_, _, get_forecast_array_eq_list sw true t ht,
    get_forecast_array_eq_list sw false t ht, by simp, ?_⟩
  intro i ha hb
  rw [forecast_list_datetime sw true t i ha, forecast_list_datetime sw false t i hb]

/-- Witness for C9: the two series at the concrete runtime payload. -/
theorem forecast_series_aligned_witness :
    ∃ la lb, forecast_advice (some payRuntime) = .list la ∧
      forecast_alert (some payRuntime) = .list lb ∧ la.length = lb.length := by
  obtain ⟨la, lb, h1, h2, h3, -⟩ :=
    forecast_series_aligned (some payRuntime) 28401120 (by decide)
  exact ⟨la, lb, h1, h2, h3⟩

/-- C3: `get_boundary_box` formats `x, y, x+10, y+10` to exactly six
fractional digits joined by "%2C", yields the specified string at
`(100000, 400000)`, and returns `None` when either coordinate does not
coerce to a number. -/
theorem boundary_box_spec :
    get_boundary_box (.num 100000) (.num 400000) =
      some "100000.000000%2C400000.000000%2C100010.000000%2C400010.000000" ∧
    (∀ x y : Coord, coordFloat? x = Option.none ∨ coordFloat? y = Option.none →
      get_boundary_box x y = Option.none) ∧
    (∀ (x y : Coord) (fx fy : ℚ), coordFloat? x = some fx → coordFloat? y = some fy →
      get_boundary_box x y =
        some (fmtFixed6 fx ++ "%2C" ++ fmtFixed6 fy ++ "%2C" ++
              fmtFixed6 (fx + 10) ++ "%2C" ++ fmtFixed6 (fy + 10))) ∧
    (∀ q : ℚ, ∃ ip fr : String, fmtFixed6 q = ip ++ ("." ++ fr) ∧ fr.length = 6) := by
  refine ⟨?_, ?_, ?_, ?_⟩
  · simp only [get_boundary_box, coordFloat?]
    norm_num
    decide
  · intro x y h
    rcases h with h | h <;> rcases hy : coordFloat? y with _ | fy <;>
      rcases hx : coordFloat? x with _ | fx <;>
      simp_all [get_boundary_box]
  · intro x y fx fy hx hy
    simp [get_boundary_box, hx, hy]
  · intro q
    refine ⟨(if q < 0 then "-" else "") ++
      toString ((intRndHalfEven (q.num.natAbs * 1000000) q.den).toNat / 1000000),
      sixFrac ((intRndHalfEven (q.num.natAbs * 1000000) q.den).toNat % 1000000),
      ?_, rfl⟩
    rw [fmtFixed6, String.append_assoc]

/-- Witness for C3: the `None` branch at a non-numeric coordinate and the
format branch at concrete numbers. -/
theorem boundary_box_spec_witness :
    get_boundary_box (.str "abc") (.num 0) = Option.none ∧
    get_boundary_box (.num 1) (.num 2) =
      some (fmtFixed6 1 ++ "%2C" ++ fmtFixed6 2 ++ "%2C" ++
            fmtFixed6 (1 + 10) ++ "%2C" ++ fmtFixed6 (2 + 10)) :=
  ⟨boundary_box_spec.2.1 (.str "abc") (.num 0) (Or.inl (by decide)),
   boundary_box_spec.2.2.1 (.num 1) (.num 2) 1 2 rfl rfl⟩
end Stookwijzer
